import Mathlib

/-!
Shallow embedding of the relay core of jinjunliu/one-api:
`relay/channel/common.go` (header setup and the transport call) and
`relay/adaptor/aws/main.go` (the AWS Bedrock adaptor: credential parsing,
model-id lookup, the unary handler and the streaming pump).

Go integers are modelled as `Int` (token counts; no claim depends on
64-bit wraparound), strings as `String`, fallible steps as `Except`.
Side effects that the claims observe (closing bodies, issuing the network
call, SSE frames written) are recorded explicitly in outcome records.
External collaborators that are not part of this repository's two source
files (the gin context, the AWS SDK, the `anthropic` conversion helpers)
enter as explicit inputs/parameters, so the control flow of the two files
is embedded exactly.
-/

namespace OneApi

/-- Model of `relaymodel.Usage`: prompt/completion/total token counters. -/
structure Usage where
  promptTokens : Int
  completionTokens : Int
  totalTokens : Int
deriving DecidableEq, Repr

/-- Model of `relaymodel.ErrorWithStatusCode`: the sole error shape crossing the
core boundary (status code plus message). -/
structure ErrorWithStatusCode where
  statusCode : Nat
  message : String
deriving DecidableEq, Repr

/-- Model of `wrapErr` from `relay/adaptor/aws/main.go`: pins status 500 and formats
the underlying cause into the message. -/
def wrapErr (msg : String) : ErrorWithStatusCode :=
  { statusCode := 500, message := msg }

/-- Model of `errors.Wrap(err, op)`: prefixes the operation name onto the causal
chain, as rendered by the `%+v` formatting in `wrapErr`. -/
def errWrap (op : String) (msg : String) : String :=
  op ++ ": " ++ msg

/-- Model of `model.Channel`: the resolved credential record (two-part key in `Key`,
region in `BaseURL`). -/
structure Channel where
  key : String
  baseURL : String
deriving DecidableEq, Repr

/-- The constructed `bedrockruntime.Client`: region plus static credentials. -/
structure AwsClient where
  region : String
  accessKey : String
  secretKey : String
deriving DecidableEq, Repr

/-- Model of `newAwsClient` from `relay/adaptor/aws/main.go`: splits `channel.Key`
on newline (`strings.Split(channel.Key, "\n")`, modelled character-wise,
which agrees with Go for the one-character separator); anything other
than exactly two components is an invalid key. -/
def newAwsClient (channel : Channel) : Except String AwsClient :=
  let ks := (channel.key.data.splitOn '\n').map (fun l => String.mk l)
  if ks.length ≠ 2 then
    Except.error "invalid key"
  else
    Except.ok { region := channel.baseURL,
                accessKey := ks.getD 0 "",
                secretKey := ks.getD 1 "" }

/-- Model of `awsModelID` from `relay/adaptor/aws/main.go`: the static switch from
requested model name to the native Bedrock model identifier. -/
def awsModelID (requestModel : String) : Except String String :=
  if requestModel = "claude-instant-1.2" then
    Except.ok "anthropic.claude-instant-v1"
  else if requestModel = "claude-2.0" then
    Except.ok "anthropic.claude-v2"
  else if requestModel = "claude-2.1" then
    Except.ok "anthropic.claude-v2:1"
  else if requestModel = "claude-3-sonnet-20240229" then
    Except.ok "anthropic.claude-3-sonnet-20240229-v1:0"
  else if requestModel = "claude-3-opus-20240229" then
    Except.ok "anthropic.claude-3-opus-20240229-v1:0"
  else if requestModel = "claude-3-haiku-20240307" then
    Except.ok "anthropic.claude-3-haiku-20240307-v1:0"
  else
    Except.error ("unknown model: " ++ requestModel)

/-- The domain of `awsModelID`'s switch, for stating exhaustiveness. -/
def recognizedModels : List String :=
  ["claude-instant-1.2", "claude-2.0", "claude-2.1",
   "claude-3-sonnet-20240229", "claude-3-opus-20240229",
   "claude-3-haiku-20240307"]

/-- The switch of `awsModelID` as a table, for stating the mapping. -/
def awsModelTable : List (String × String) :=
  [("claude-instant-1.2", "anthropic.claude-instant-v1"),
   ("claude-2.0", "anthropic.claude-v2"),
   ("claude-2.1", "anthropic.claude-v2:1"),
   ("claude-3-sonnet-20240229", "anthropic.claude-3-sonnet-20240229-v1:0"),
   ("claude-3-opus-20240229", "anthropic.claude-3-opus-20240229-v1:0"),
   ("claude-3-haiku-20240307", "anthropic.claude-3-haiku-20240307-v1:0")]

/-! ## relay/channel/common.go -/

/-- The inbound request headers read by `SetupCommonRequestHeader`
(`c.Request.Header.Get` for Content-Type and Accept; a missing header
reads as the empty string, as in net/http). -/
structure InboundHeaders where
  contentType : String
  accept : String
deriving DecidableEq, Repr

/-- The headers of the outbound native request (`req.Header`). -/
structure NativeHeaders where
  contentType : String
  accept : String
deriving DecidableEq, Repr

/-- Model of `util.RelayMeta`, restricted to the field the embedded code reads. -/
structure RelayMeta where
  isStream : Bool
deriving DecidableEq, Repr

/-- Model of `SetupCommonRequestHeader` from `relay/channel/common.go`: sets
Content-Type and Accept from the inbound request, then overrides Accept
with `text/event-stream` when the request is streaming and the inbound
Accept header is empty. -/
def SetupCommonRequestHeader (c : InboundHeaders) (req : NativeHeaders)
    (meta : RelayMeta) : NativeHeaders :=
  let req1 := { req with contentType := c.contentType }
  let req2 := { req1 with accept := c.accept }
  if meta.isStream && (c.accept == "") then
    { req2 with accept := "text/event-stream" }
  else
    req2

/-- The possible results of `util.HTTPClient.Do(req)`, as observed by
`DoRequest`: a transport-level error, a nil response with nil error, or a
usable response (abstracted to a status code). -/
inductive TransportResult
  | transportError (e : String)
  | nilResponse
  | ok (status : Nat)
deriving DecidableEq, Repr

/-- What `DoRequest` did before returning: its result plus whether each of
the two bodies (`req.Body`, `c.Request.Body`) was closed. -/
structure DoRequestOutcome where
  result : Except String Nat
  reqBodyClosed : Bool
  inboundBodyClosed : Bool
deriving Repr

/-- Model of `DoRequest` from `relay/channel/common.go`: returns transport errors
and nil responses as errors; on the success path it closes the outbound
request body and the inbound request body before returning. -/
def DoRequest (r : TransportResult) : DoRequestOutcome :=
  match r with
  | TransportResult.transportError e =>
      { result := Except.error e, reqBodyClosed := false, inboundBodyClosed := false }
  | TransportResult.nilResponse =>
      { result := Except.error "resp is nil", reqBodyClosed := false, inboundBodyClosed := false }
  | TransportResult.ok status =>
      { result := Except.ok status, reqBodyClosed := true, inboundBodyClosed := true }

/-! ## relay/adaptor/aws/main.go — unary handler -/

/-- Model of `anthropic.Usage` on a decoded native response. -/
structure ClaudeUsage where
  inputTokens : Int
  outputTokens : Int
deriving DecidableEq, Repr

/-- Model of `anthropic.Response`, restricted to the fields the handler reads:
the provider's own model field and the usage counters (the rest of the
body is abstracted into `payload`). -/
structure ClaudeResponse where
  model : String
  payload : String
  usage : ClaudeUsage
deriving DecidableEq, Repr

/-- The canonical (OpenAI-shaped) unary response the handler writes:
identifier, model name, content payload and usage. -/
structure OpenAIResponse where
  id : String
  model : String
  payload : String
  usage : Usage
deriving DecidableEq, Repr

/-- The gin-context inputs `Handler`/`StreamHandler` read: the channel
stashed under `CtxKeyChannel`, the strings under `CtxKeyRequestModel` and
`CtxKeyOriginModel` (`c.GetString` yields `""` when absent), whether a
converted request is stashed under `CtxKeyConvertedRequest`, and the
timestamp `helper.GetTimestamp()` read once at stream start. -/
structure HandlerCtx where
  channel : Option Channel
  requestModel : String
  originModel : String
  convertedRequestPresent : Bool
  createdTime : Int
deriving DecidableEq, Repr

/-- The outcomes of the external fallible steps of the unary path, in
program order: `copier.Copy`, `json.Marshal` of the request body, the
`InvokeModel` network call, and `json.Unmarshal` of the native body. -/
structure UnaryEnv where
  copyResult : Except String Unit
  marshalResult : Except String Unit
  invokeResult : Except String Unit
  unmarshalResult : Except String ClaudeResponse
deriving Repr

/-- What the unary `Handler` did: the returned error (if any), the
returned usage (if any), whether the `InvokeModel` network call was
issued, and the canonical response written to the client (if any). -/
structure UnaryOutcome where
  error : Option ErrorWithStatusCode
  usage : Option Usage
  networkCalled : Bool
  response : Option OpenAIResponse
deriving Repr

/-- Model of `Handler` from `relay/adaptor/aws/main.go`. The conversion
`anthropic.ResponseClaude2OpenAI` lives outside the two embedded source
files, so it is taken as an explicit parameter `convert`; the handler then
overwrites the converted response's model field with `modelName` and
installs the recomputed usage, exactly as the source does. -/
def Handler (convert : ClaudeResponse → OpenAIResponse) (ctx : HandlerCtx)
    (modelName : String) (env : UnaryEnv) : UnaryOutcome :=
  match ctx.channel with
  | none =>
      { error := some (wrapErr "channel not found"), usage := none,
        networkCalled := false, response := none }
  | some channel =>
    match newAwsClient channel with
    | Except.error e =>
        { error := some (wrapErr (errWrap "newAwsClient" e)), usage := none,
          networkCalled := false, response := none }
    | Except.ok _awsCli =>
      match awsModelID ctx.requestModel with
      | Except.error e =>
          { error := some (wrapErr (errWrap "awsModelID" e)), usage := none,
            networkCalled := false, response := none }
      | Except.ok _awsModelId =>
        if ctx.convertedRequestPresent = false then
          { error := some (wrapErr "request not found"), usage := none,
            networkCalled := false, response := none }
        else
          match env.copyResult with
          | Except.error e =>
              { error := some (wrapErr (errWrap "copy request" e)), usage := none,
                networkCalled := false, response := none }
          | Except.ok _ =>
            match env.marshalResult with
            | Except.error e =>
                { error := some (wrapErr (errWrap "marshal request" e)), usage := none,
                  networkCalled := false, response := none }
            | Except.ok _ =>
              match env.invokeResult with
              | Except.error e =>
                  { error := some (wrapErr (errWrap "InvokeModel" e)), usage := none,
                    networkCalled := true, response := none }
              | Except.ok _ =>
                match env.unmarshalResult with
                | Except.error e =>
                    { error := some (wrapErr (errWrap "unmarshal response" e)), usage := none,
                      networkCalled := true, response := none }
                | Except.ok claudeResponse =>
                  let openaiResp := convert claudeResponse
                  let openaiResp := { openaiResp with model := modelName }
                  let usage : Usage :=
                    { promptTokens := claudeResponse.usage.inputTokens,
                      completionTokens := claudeResponse.usage.outputTokens,
                      totalTokens := claudeResponse.usage.inputTokens
                        + claudeResponse.usage.outputTokens }
                  let openaiResp := { openaiResp with usage := usage }
                  { error := none, usage := some usage,
                    networkCalled := true, response := some openaiResp }

/-! ## relay/adaptor/aws/main.go — streaming pump -/

/-- The metadata returned by `anthropic.StreamResponseClaude2OpenAI` when
a native event carries usage information: the provider-assigned id and the
usage deltas. -/
structure MetaInfo where
  id : String
  inputTokens : Int
  outputTokens : Int
deriving DecidableEq, Repr

/-- A displayable chunk returned by the conversion, abstracted to its
payload; `marshalOk` records whether the subsequent `json.Marshal` of the
stamped chunk succeeds. -/
structure ContentPiece where
  payload : String
  marshalOk : Bool
deriving DecidableEq, Repr

/-- The result of decoding a `ResponseStreamMemberChunk` and converting it
with `anthropic.StreamResponseClaude2OpenAI` (which lives outside the two
embedded source files): either the JSON decode fails, or it yields an
optional displayable chunk and optional metadata. -/
inductive ChunkDecode
  | fail
  | ok (response : Option ContentPiece) (meta : Option MetaInfo)
deriving DecidableEq, Repr

/-- A native stream event as the pump's switch discriminates it:
a `ResponseStreamMemberChunk` (with its decode/convert result), an
`UnknownUnionMember` with its tag, or the default case (nil or unknown
union type). -/
inductive StreamEvent
  | chunk (d : ChunkDecode)
  | unknownTag (tag : String)
  | unknownUnion
deriving DecidableEq, Repr

/-- A chunk as stamped by the pump just before marshalling: the captured
identifier, the origin model name, the creation timestamp and the payload. -/
structure StampedChunk where
  id : String
  model : String
  created : Int
  payload : String
deriving DecidableEq, Repr

/-- One SSE frame written by the pump: either a `data: ` content frame or
the `data: [DONE]` terminator. -/
inductive Frame
  | data (c : StampedChunk)
  | done
deriving DecidableEq, Repr

/-- How the pump loop ended: channel closure (terminator written, loop
returned false from the closed-channel branch) or an error branch (decode
failure, unknown tag, or unknown union type — loop returned false without
a terminator). -/
inductive StreamEnd
  | closed
  | errored
deriving DecidableEq, Repr

/-- The pump's observable result: frames written from this point on, the
final usage accumulator, the final captured id, and how the loop ended. -/
structure PumpResult where
  frames : List Frame
  usage : Usage
  id : String
  ending : StreamEnd
deriving DecidableEq, Repr

/-- The body of `c.Stream(func(w io.Writer) bool ...)` in `StreamHandler`,
iterated over the remaining native events; `ident` and `usage` are the
`var id string` and `var usage relaymodel.Usage` accumulators. An empty
list models the channel being closed (`!ok`): the terminator frame is
written. A metadata-bearing chunk accumulates usage deltas and captures
the id without writing a frame; an empty chunk writes nothing; a
displayable chunk is stamped with the captured id, the origin model and
the fixed timestamp, and written unless its marshal fails (which only
logs); decode failures and unknown events end the loop with no
terminator. -/
def pumpLoop (originModel : String) (createdTime : Int) :
    List StreamEvent → String → Usage → PumpResult
  | [], ident, usage =>
      { frames := [Frame.done], usage := usage, id := ident,
        ending := StreamEnd.closed }
  | e :: rest, ident, usage =>
    match e with
    | StreamEvent.chunk ChunkDecode.fail =>
        { frames := [], usage := usage, id := ident,
          ending := StreamEnd.errored }
    | StreamEvent.chunk (ChunkDecode.ok response meta) =>
      match meta with
      | some m =>
          pumpLoop originModel createdTime rest ("chatcmpl-" ++ m.id)
            { usage with
                promptTokens := usage.promptTokens + m.inputTokens,
                completionTokens := usage.completionTokens + m.outputTokens }
      | none =>
        match response with
        | none => pumpLoop originModel createdTime rest ident usage
        | some r =>
          if r.marshalOk then
            let tail := pumpLoop originModel createdTime rest ident usage
            { tail with
                frames := Frame.data
                  { id := ident, model := originModel,
                    created := createdTime, payload := r.payload } :: tail.frames }
          else
            pumpLoop originModel createdTime rest ident usage
    | StreamEvent.unknownTag _ =>
        { frames := [], usage := usage, id := ident,
          ending := StreamEnd.errored }
    | StreamEvent.unknownUnion =>
        { frames := [], usage := usage, id := ident,
          ending := StreamEnd.errored }

/-- The outcomes of the external fallible steps of the streaming path, in
program order, plus the native events the opened stream delivers before
its channel closes. -/
structure StreamEnv where
  copyResult : Except String Unit
  marshalResult : Except String Unit
  invokeResult : Except String Unit
  events : List StreamEvent
deriving Repr

/-- What `StreamHandler` did: the returned error (if any), the returned
usage (if any), whether the `InvokeModelWithResponseStream` network call
was issued, the SSE frames written, and whether the native stream was
opened and then closed by the deferred `stream.Close()`. -/
structure StreamOutcome where
  error : Option ErrorWithStatusCode
  usage : Option Usage
  networkCalled : Bool
  frames : List Frame
  streamClosed : Bool
deriving Repr

/-- Model of `StreamHandler` from `relay/adaptor/aws/main.go`: the pre-flight steps
(channel lookup, client construction, model-id lookup, converted-request
lookup, copy, marshal) each fail without a network call; after a
successful `InvokeModelWithResponseStream` the pump runs over the native
events with the id accumulator starting empty and the usage accumulator
zeroed, and the accumulated usage is returned with a nil error even when
the pump ended on an error branch. -/
def StreamHandler (ctx : HandlerCtx) (env : StreamEnv) : StreamOutcome :=
  match ctx.channel with
  | none =>
      { error := some (wrapErr "channel not found"), usage := none,
        networkCalled := false, frames := [], streamClosed := false }
  | some channel =>
    match newAwsClient channel with
    | Except.error e =>
        { error := some (wrapErr (errWrap "newAwsClient" e)), usage := none,
          networkCalled := false, frames := [], streamClosed := false }
    | Except.ok _awsCli =>
      match awsModelID ctx.requestModel with
      | Except.error e =>
          { error := some (wrapErr (errWrap "awsModelID" e)), usage := none,
            networkCalled := false, frames := [], streamClosed := false }
      | Except.ok _awsModelId =>
        if ctx.convertedRequestPresent = false then
          { error := some (wrapErr "request not found"), usage := none,
            networkCalled := false, frames := [], streamClosed := false }
        else
          match env.copyResult with
          | Except.error e =>
              { error := some (wrapErr (errWrap "copy request" e)), usage := none,
                networkCalled := false, frames := [], streamClosed := false }
          | Except.ok _ =>
            match env.marshalResult with
            | Except.error e =>
                { error := some (wrapErr (errWrap "marshal request" e)), usage := none,
                  networkCalled := false, frames := [], streamClosed := false }
            | Except.ok _ =>
              match env.invokeResult with
              | Except.error e =>
                  { error := some (wrapErr (errWrap "InvokeModelWithResponseStream" e)),
                    usage := none, networkCalled := true, frames := [],
                    streamClosed := false }
              | Except.ok _ =>
                let r := pumpLoop ctx.originModel ctx.createdTime env.events ""
                  { promptTokens := 0, completionTokens := 0, totalTokens := 0 }
                { error := none, usage := some r.usage, networkCalled := true,
                  frames := r.frames, streamClosed := true }

/-! ## Spec-side observation functions over event lists -/

/-- The metadata carried by an event, when any. -/
def metaOf : StreamEvent → Option MetaInfo
  | StreamEvent.chunk (ChunkDecode.ok _ (some m)) => some m
  | _ => none

/-- Whether the pump's loop body returns `true` on this event (keeps
pulling) rather than ending the stream. -/
def eventContinues : StreamEvent → Bool
  | StreamEvent.chunk ChunkDecode.fail => false
  | StreamEvent.chunk (ChunkDecode.ok _ _) => true
  | StreamEvent.unknownTag _ => false
  | StreamEvent.unknownUnion => false

/-- Pointwise sum of the `InputTokens` deltas of the metadata-bearing
events of a list. -/
def sumInputs (es : List StreamEvent) : Int :=
  (es.filterMap metaOf).foldr (fun m acc => m.inputTokens + acc) 0

/-- Pointwise sum of the `OutputTokens` deltas of the metadata-bearing
events of a list. -/
def sumOutputs (es : List StreamEvent) : Int :=
  (es.filterMap metaOf).foldr (fun m acc => m.outputTokens + acc) 0

/-- Whether the streaming handler's pre-flight steps all succeed, so that
control reaches the pump loop: a channel with a well-formed key is stashed
in the context, the requested model is recognized, a converted request is
present, and the copy/marshal/invoke steps succeed. -/
def streamReachesPump (ctx : HandlerCtx) (env : StreamEnv) : Prop :=
  (∃ cl, ctx.channel = some cl ∧ ∃ c, newAwsClient cl = Except.ok c) ∧
  (∃ mid, awsModelID ctx.requestModel = Except.ok mid) ∧
  ctx.convertedRequestPresent = true ∧
  env.copyResult = Except.ok () ∧
  env.marshalResult = Except.ok () ∧
  env.invokeResult = Except.ok ()

/-! ## Helper lemmas -/

theorem takeWhile_append_all (p : StreamEvent → Bool) :
    ∀ (es l : List StreamEvent), (∀ e ∈ es, p e = true) →
      (es ++ l).takeWhile p = es ++ l.takeWhile p := by
  intro es
  induction es with
  | nil => intro l _; simp
  | cons e rest ih =>
    intro l h
    have he : p e = true := h e (List.mem_cons_self e rest)
    simp only [List.cons_append, List.takeWhile_cons, he, if_true]
    rw [ih l (fun x hx => h x (List.mem_cons_of_mem e hx))]

theorem sumInputs_cons (e : StreamEvent) (es : List StreamEvent) :
    sumInputs (e :: es) = (match metaOf e with
      | some m => m.inputTokens
      | none => 0) + sumInputs es := by
  cases hm : metaOf e <;> simp [sumInputs, List.filterMap_cons, hm]

theorem sumOutputs_cons (e : StreamEvent) (es : List StreamEvent) :
    sumOutputs (e :: es) = (match metaOf e with
      | some m => m.outputTokens
      | none => 0) + sumOutputs es := by
  cases hm : metaOf e <;> simp [sumOutputs, List.filterMap_cons, hm]

/-- The pump's usage accumulator at exit: the initial accumulator plus the
pointwise sums of the deltas of the metadata-bearing events among the
events processed before the loop ends (all of them when every event
continues; the longest continuing prefix otherwise). The total-tokens
field is never touched. -/
theorem pumpLoop_usage (model : String) (t : Int) :
    ∀ (es : List StreamEvent) (ident : String) (u : Usage),
      (pumpLoop model t es ident u).usage =
        { promptTokens := u.promptTokens + sumInputs (es.takeWhile eventContinues),
          completionTokens := u.completionTokens + sumOutputs (es.takeWhile eventContinues),
          totalTokens := u.totalTokens } := by
  intro es
  induction es with
  | nil => intro ident u; simp [pumpLoop, sumInputs, sumOutputs]
  | cons e rest ih =>
    intro ident u
    cases e with
    | chunk d =>
      cases d with
      | fail =>
        simp [pumpLoop, eventContinues, List.takeWhile_cons, sumInputs, sumOutputs]
      | ok response meta =>
        cases meta with
        | some m =>
          simp only [pumpLoop]
          rw [ih]
          simp only [List.takeWhile_cons, eventContinues, if_true]
          rw [sumInputs_cons, sumOutputs_cons]
          simp only [metaOf]
          apply Usage.mk.injEq .. |>.mpr
          refine ⟨by ring, by ring, rfl⟩
        | none =>
          cases response with
          | none =>
            simp only [pumpLoop]
            rw [ih]
            simp only [List.takeWhile_cons, eventContinues, if_true]
            rw [sumInputs_cons, sumOutputs_cons]
            simp [metaOf]
          | some r =>
            by_cases hr : r.marshalOk <;>
              simp only [pumpLoop, hr, if_true, if_false, Bool.false_eq_true, ite_false,
                ite_true] <;>
              (rw [ih];
               simp only [List.takeWhile_cons, eventContinues, if_true];
               rw [sumInputs_cons, sumOutputs_cons];
               simp [metaOf])
    | unknownTag tag =>
        simp [pumpLoop, eventContinues, List.takeWhile_cons, sumInputs, sumOutputs]
    | unknownUnion =>
        simp [pumpLoop, eventContinues, List.takeWhile_cons, sumInputs, sumOutputs]

/-- Frames written by the pump over a metadata-free event list all carry
the incoming captured identifier, the origin model and the fixed
timestamp. -/
theorem pumpLoop_frames_stamped (model : String) (t : Int) :
    ∀ (es : List StreamEvent), (es.all fun e => (metaOf e).isNone) = true →
      ∀ (ident : String) (u : Usage),
        ((pumpLoop model t es ident u).frames.all fun f =>
          match f with
          | Frame.done => true
          | Frame.data c => c.id == ident && c.model == model && c.created == t) = true := by
  intro es
  induction es with
  | nil => intro _ ident u; simp [pumpLoop]
  | cons e rest ih =>
    intro h ident u
    simp only [List.all_cons, Bool.and_eq_true] at h
    obtain ⟨he, hrest⟩ := h
    cases e with
    | chunk d =>
      cases d with
      | fail => simp [pumpLoop]
      | ok response meta =>
        cases meta with
        | some m => simp [metaOf] at he
        | none =>
          cases response with
          | none => simpa [pumpLoop] using ih hrest ident u
          | some r =>
            by_cases hr : r.marshalOk
            · simp only [pumpLoop, hr, ite_true, List.all_cons]
              rw [ih hrest ident u]
              simp
            · simpa [pumpLoop, hr] using ih hrest ident u
    | unknownTag tag => simp [pumpLoop]
    | unknownUnion => simp [pumpLoop]

/-- When every event continues, the pump reaches the closed channel: the
frame list is some content frames followed by exactly one terminator, and
the ending is normal closure. -/
theorem pumpLoop_closed_frames (model : String) (t : Int) :
    ∀ (es : List StreamEvent), (∀ e ∈ es, eventContinues e = true) →
      ∀ (ident : String) (u : Usage),
        (∃ cs, (pumpLoop model t es ident u).frames = cs ++ [Frame.done] ∧
          Frame.done ∉ cs) ∧
        (pumpLoop model t es ident u).ending = StreamEnd.closed := by
  intro es
  induction es with
  | nil => intro _ ident u; exact ⟨⟨[], by simp [pumpLoop], by simp⟩, rfl⟩
  | cons e rest ih =>
    intro h ident u
    have he : eventContinues e = true := h e (List.mem_cons_self e rest)
    have hrest : ∀ x ∈ rest, eventContinues x = true :=
      fun x hx => h x (List.mem_cons_of_mem e hx)
    cases e with
    | chunk d =>
      cases d with
      | fail => simp [eventContinues] at he
      | ok response meta =>
        cases meta with
        | some m => simpa [pumpLoop] using ih hrest _ _
        | none =>
          cases response with
          | none => simpa [pumpLoop] using ih hrest ident u
          | some r =>
            by_cases hr : r.marshalOk
            · obtain ⟨⟨cs, hcs, hnd⟩, hend⟩ := ih hrest ident u
              refine ⟨⟨Frame.data ⟨ident, model, t, r.payload⟩ :: cs, ?_, ?_⟩, ?_⟩
              · simp [pumpLoop, hr, hcs]
              · simp [hnd]
              · simp [pumpLoop, hr, hend]
            · simpa [pumpLoop, hr] using ih hrest ident u
    | unknownTag tag => simp [eventContinues] at he
    | unknownUnion => simp [eventContinues] at he

/-- Events after the first non-continuing event are never pulled: the pump
over a continuing prefix, one terminating event and any suffix equals the
pump over the prefix and the terminating event alone. -/
theorem pumpLoop_stops_at_error (model : String) (t : Int)
    (bad : StreamEvent) (hbad : eventContinues bad = false)
    (rest : List StreamEvent) :
    ∀ (es : List StreamEvent) (ident : String) (u : Usage),
      pumpLoop model t (es ++ bad :: rest) ident u =
        pumpLoop model t (es ++ [bad]) ident u := by
  intro es
  induction es with
  | nil =>
    intro ident u
    cases bad with
    | chunk d =>
      cases d with
      | fail => simp [pumpLoop]
      | ok response meta => simp [eventContinues] at hbad
    | unknownTag tag => simp [pumpLoop]
    | unknownUnion => simp [pumpLoop]
  | cons e es ih =>
    intro ident u
    cases e with
    | chunk d =>
      cases d with
      | fail => simp [pumpLoop]
      | ok response meta =>
        cases meta with
        | some m => simpa [pumpLoop] using ih _ _
        | none =>
          cases response with
          | none => simpa [pumpLoop] using ih ident u
          | some r =>
            by_cases hr : r.marshalOk <;> simp [pumpLoop, hr, ih ident u]
    | unknownTag tag => simp [pumpLoop]
    | unknownUnion => simp [pumpLoop]

/-- A pump run that hits a terminating event after a continuing prefix
ends on the error branch and never writes a terminator frame. -/
theorem pumpLoop_errored_no_done (model : String) (t : Int)
    (bad : StreamEvent) (hbad : eventContinues bad = false)
    (rest : List StreamEvent) :
    ∀ (es : List StreamEvent), (∀ e ∈ es, eventContinues e = true) →
      ∀ (ident : String) (u : Usage),
        (pumpLoop model t (es ++ bad :: rest) ident u).ending = StreamEnd.errored ∧
        Frame.done ∉ (pumpLoop model t (es ++ bad :: rest) ident u).frames := by
  intro es
  induction es with
  | nil =>
    intro _ ident u
    cases bad with
    | chunk d =>
      cases d with
      | fail => simp [pumpLoop]
      | ok response meta => simp [eventContinues] at hbad
    | unknownTag tag => simp [pumpLoop]
    | unknownUnion => simp [pumpLoop]
  | cons e es ih =>
    intro h ident u
    have he : eventContinues e = true := h e (List.mem_cons_self e es)
    have hrest : ∀ x ∈ es, eventContinues x = true :=
      fun x hx => h x (List.mem_cons_of_mem e hx)
    cases e with
    | chunk d =>
      cases d with
      | fail => simp [eventContinues] at he
      | ok response meta =>
        cases meta with
        | some m => simpa [pumpLoop] using ih hrest _ _
        | none =>
          cases response with
          | none => simpa [pumpLoop] using ih hrest ident u
          | some r =>
            by_cases hr : r.marshalOk
            · obtain ⟨hend, hnd⟩ := ih hrest ident u
              constructor
              · simpa [pumpLoop, hr] using hend
              · simp only [pumpLoop, hr, ite_true, List.cons_append, List.mem_cons]
                intro hc
                rcases hc with hc | hc
                · exact absurd hc.symm (by simp)
                · exact hnd hc
            · simpa [pumpLoop, hr] using ih hrest ident u
    | unknownTag tag => simp [eventContinues] at he
    | unknownUnion => simp [eventContinues] at he

/-- A model name outside the recognized list always takes the default
branch of the switch. -/
theorem awsModelID_not_recognized (s : String) (h : s ∉ recognizedModels) :
    awsModelID s = Except.error ("unknown model: " ++ s) := by
  simp only [recognizedModels, List.mem_cons, List.mem_singleton, not_or] at h
  obtain ⟨h1, h2, h3, h4, h5, h6, _⟩ := h
  simp [awsModelID, h1, h2, h3, h4, h5, h6]

/-- When the pre-flight steps succeed, the streaming handler is exactly
the pump over the delivered events, started with an empty identifier and a
zeroed usage accumulator, returning a nil error, the pump's usage and
frames, and closing the opened stream. -/
theorem StreamHandler_pump (ctx : HandlerCtx) (env : StreamEnv)
    (h : streamReachesPump ctx env) :
    StreamHandler ctx env =
      { error := none,
        usage := some (pumpLoop ctx.originModel ctx.createdTime env.events ""
          { promptTokens := 0, completionTokens := 0, totalTokens := 0 }).usage,
        networkCalled := true,
        frames := (pumpLoop ctx.originModel ctx.createdTime env.events ""
          { promptTokens := 0, completionTokens := 0, totalTokens := 0 }).frames,
        streamClosed := true } := by
  obtain ⟨⟨cl, hcl, c, hc⟩, ⟨mid, hmid⟩, hconv, hcopy, hmarshal, hinvoke⟩ := h
  simp [StreamHandler, hcl, hc, hmid, hconv, hcopy, hmarshal, hinvoke]

/-! ## Claim theorems -/

/-- C9: header construction always copies the inbound Content-Type to the
native request; it copies the inbound Accept unless the request is a
streaming request and the inbound Accept is the empty string, in which
case the native request's Accept is set to text/event-stream. -/
theorem setup_header_content_type_and_accept (c : InboundHeaders)
    (req : NativeHeaders) (meta : RelayMeta) :
    (SetupCommonRequestHeader c req meta).contentType = c.contentType ∧
    (SetupCommonRequestHeader c req meta).accept =
      (if meta.isStream = true ∧ c.accept = "" then "text/event-stream"
       else c.accept) := by
  unfold SetupCommonRequestHeader
  by_cases h1 : meta.isStream <;> by_cases h2 : c.accept = "" <;>
    simp [h1, h2, beq_iff_eq]

/-- C3 counterexample: on the transport-error exit path, `DoRequest`
returns without closing either the outbound request body or the inbound
request body, so the claim that every exit path closes both is false. -/
theorem do_request_error_path_leaves_bodies_open :
    (DoRequest (TransportResult.transportError "connection refused")).reqBodyClosed
        = false ∧
    (DoRequest (TransportResult.transportError "connection refused")).inboundBodyClosed
        = false ∧
    (DoRequest (TransportResult.transportError "connection refused")).result
        = Except.error "connection refused" :=
  ⟨rfl, rfl, rfl⟩

/-- C3 (amended): `DoRequest` closes the outbound request body and the
original inbound request body exactly on the success exit path; the
transport-error and nil-response exit paths return without closing either
body. -/
theorem do_request_closes_bodies_iff_success (r : TransportResult) :
    (DoRequest r).reqBodyClosed = (DoRequest r).result.isOk ∧
    (DoRequest r).inboundBodyClosed = (DoRequest r).result.isOk := by
  cases r <;> simp [DoRequest, Except.isOk, Except.toBool]

/-- C4: the model-id lookup returns exactly the native identifier of the
static table for every recognized name and an error (never a default
substitution) for every other name; on an unrecognized model name both
handlers fail before issuing the provider network call. -/
theorem aws_model_id_exact_lookup :
    (∀ p ∈ awsModelTable, awsModelID p.1 = Except.ok p.2) ∧
    (∀ s, s ∉ recognizedModels →
      awsModelID s = Except.error ("unknown model: " ++ s)) ∧
    (∀ (convert : ClaudeResponse → OpenAIResponse) (ctx : HandlerCtx)
        (modelName : String) (env : UnaryEnv),
      ctx.requestModel ∉ recognizedModels →
        (Handler convert ctx modelName env).networkCalled = false ∧
        (Handler convert ctx modelName env).error.isSome = true) ∧
    (∀ (ctx : HandlerCtx) (env : StreamEnv),
      ctx.requestModel ∉ recognizedModels →
        (StreamHandler ctx env).networkCalled = false ∧
        (StreamHandler ctx env).error.isSome = true) := by
  refine ⟨fun p hp => by fin_cases hp <;> rfl, awsModelID_not_recognized, ?_, ?_⟩
  · intro convert ctx modelName env h
    cases hch : ctx.channel with
    | none => simp [Handler, hch]
    | some cl =>
      cases hna : newAwsClient cl with
      | error e => simp [Handler, hch, hna]
      | ok c => simp [Handler, hch, hna, awsModelID_not_recognized _ h]
  · intro ctx env h
    cases hch : ctx.channel with
    | none => simp [StreamHandler, hch]
    | some cl =>
      cases hna : newAwsClient cl with
      | error e => simp [StreamHandler, hch, hna]
      | ok c => simp [StreamHandler, hch, hna, awsModelID_not_recognized _ h]

/-- Witness for C4: the name gpt-4 is outside the table and the lookup
rejects it with the exact default-branch error. -/
theorem aws_model_id_exact_lookup_witness :
    "gpt-4" ∉ recognizedModels ∧
    awsModelID "gpt-4" = Except.error ("unknown model: " ++ "gpt-4") :=
  ⟨by decide, aws_model_id_exact_lookup.2.1 "gpt-4" (by decide)⟩

/-- C6: a stored credential secret that does not split into exactly two
newline-separated components makes client construction fail with the
invalid-key error, and both the unary and the streaming handler return
that error wrapped in the error envelope without issuing any network
call. -/
theorem invalid_credential_no_network (cl : Channel)
    (h : (cl.key.data.splitOn '\n').length ≠ 2) :
    newAwsClient cl = Except.error "invalid key" ∧
    (∀ (convert : ClaudeResponse → OpenAIResponse) (ctx : HandlerCtx)
        (modelName : String) (env : UnaryEnv), ctx.channel = some cl →
      (Handler convert ctx modelName env).error
          = some (wrapErr (errWrap "newAwsClient" "invalid key")) ∧
      (Handler convert ctx modelName env).networkCalled = false) ∧
    (∀ (ctx : HandlerCtx) (env : StreamEnv), ctx.channel = some cl →
      (StreamHandler ctx env).error
          = some (wrapErr (errWrap "newAwsClient" "invalid key")) ∧
      (StreamHandler ctx env).networkCalled = false) := by
  have hna : newAwsClient cl = Except.error "invalid key" := by
    simp [newAwsClient, List.length_map, h]
  refine ⟨hna, ?_, ?_⟩
  · intro convert ctx modelName env hch
    simp [Handler, hch, hna]
  · intro ctx env hch
    simp [StreamHandler, hch, hna]

/-- Witness for C6: a one-component secret is rejected and the unary and
streaming handlers fail without a network call. -/
theorem invalid_credential_no_network_witness :
    ((("justonekey" : String).data.splitOn '\n').length ≠ 2) ∧
    newAwsClient ⟨"justonekey", "eu-central-1"⟩ = Except.error "invalid key" ∧
    (StreamHandler ⟨some ⟨"justonekey", "eu-central-1"⟩, "claude-2.0", "claude-2.0", true, 1⟩
        ⟨Except.ok (), Except.ok (), Except.ok (), []⟩).networkCalled = false ∧
    (Handler (fun _ => ⟨"", "", "", ⟨0, 0, 0⟩⟩)
        ⟨some ⟨"justonekey", "eu-central-1"⟩, "claude-2.0", "claude-2.0", true, 1⟩
        "claude-2.0"
        ⟨Except.ok (), Except.ok (), Except.ok (), Except.error "n/a"⟩).networkCalled
      = false := by
  have h := invalid_credential_no_network ⟨"justonekey", "eu-central-1"⟩ (by decide)
  exact ⟨by decide, h.1,
    (h.2.2 ⟨some ⟨"justonekey", "eu-central-1"⟩, "claude-2.0", "claude-2.0", true, 1⟩
      ⟨Except.ok (), Except.ok (), Except.ok (), []⟩ rfl).2,
    (h.2.1 (fun _ => ⟨"", "", "", ⟨0, 0, 0⟩⟩)
      ⟨some ⟨"justonekey", "eu-central-1"⟩, "claude-2.0", "claude-2.0", true, 1⟩
      "claude-2.0"
      ⟨Except.ok (), Except.ok (), Except.ok (), Except.error "n/a"⟩ rfl).2⟩

/-- C5: when the unary handler reaches translation, the canonical
response's model field is overwritten with the caller-supplied requested
model name — for every conversion function and native response, i.e.
regardless of the native response's own model field — and its usage is
prompt = native input tokens, completion = native output tokens,
total = prompt + completion, independent of anything the conversion
reports; the same usage is returned to the caller with a nil error. -/
theorem unary_translation_model_and_usage
    (convert : ClaudeResponse → OpenAIResponse) (ctx : HandlerCtx)
    (modelName : String) (env : UnaryEnv) (cr : ClaudeResponse)
    (hch : ∃ cl, ctx.channel = some cl ∧ ∃ c, newAwsClient cl = Except.ok c)
    (hmid : ∃ mid, awsModelID ctx.requestModel = Except.ok mid)
    (hconv : ctx.convertedRequestPresent = true)
    (hcopy : env.copyResult = Except.ok ())
    (hmarshal : env.marshalResult = Except.ok ())
    (hinvoke : env.invokeResult = Except.ok ())
    (hun : env.unmarshalResult = Except.ok cr) :
    ∃ resp, (Handler convert ctx modelName env).response = some resp ∧
      resp.model = modelName ∧
      resp.usage = { promptTokens := cr.usage.inputTokens,
                     completionTokens := cr.usage.outputTokens,
                     totalTokens := cr.usage.inputTokens + cr.usage.outputTokens } ∧
      (Handler convert ctx modelName env).usage = some resp.usage ∧
      (Handler convert ctx modelName env).error = none := by
  obtain ⟨cl, hcl, c, hc⟩ := hch
  obtain ⟨mid, hm⟩ := hmid
  refine ⟨({ convert cr with
      model := modelName,
      usage := { promptTokens := cr.usage.inputTokens,
                 completionTokens := cr.usage.outputTokens,
                 totalTokens := cr.usage.inputTokens + cr.usage.outputTokens } }),
    ?_, rfl, rfl, ?_, ?_⟩ <;>
    simp [Handler, hcl, hc, hm, hconv, hcopy, hmarshal, hinvoke, hun]

/-- Witness for C5: a synthetic native response with prompt=10,
completion=5 yields usage {10,5,15}, and the model field is the
caller-requested name even though the conversion put the provider's
internal model id there. -/
theorem unary_translation_model_and_usage_witness :
    ∃ resp,
      (Handler (fun cr => ⟨"native-id", cr.model, cr.payload, ⟨0, 0, 999⟩⟩)
          ⟨some ⟨"AK\nSK", "us-west-2"⟩, "claude-3-opus-20240229", "claude-3-opus-20240229",
           true, 0⟩
          "my-claude"
          ⟨Except.ok (), Except.ok (), Except.ok (),
           Except.ok ⟨"anthropic-internal", "hello", ⟨10, 5⟩⟩⟩).response = some resp ∧
      resp.model = "my-claude" ∧
      resp.usage = ⟨10, 5, 10 + 5⟩ ∧
      (Handler (fun cr => ⟨"native-id", cr.model, cr.payload, ⟨0, 0, 999⟩⟩)
          ⟨some ⟨"AK\nSK", "us-west-2"⟩, "claude-3-opus-20240229", "claude-3-opus-20240229",
           true, 0⟩
          "my-claude"
          ⟨Except.ok (), Except.ok (), Except.ok (),
           Except.ok ⟨"anthropic-internal", "hello", ⟨10, 5⟩⟩⟩).usage = some resp.usage ∧
      (Handler (fun cr => ⟨"native-id", cr.model, cr.payload, ⟨0, 0, 999⟩⟩)
          ⟨some ⟨"AK\nSK", "us-west-2"⟩, "claude-3-opus-20240229", "claude-3-opus-20240229",
           true, 0⟩
          "my-claude"
          ⟨Except.ok (), Except.ok (), Except.ok (),
           Except.ok ⟨"anthropic-internal", "hello", ⟨10, 5⟩⟩⟩).error = none :=
  unary_translation_model_and_usage
    (fun cr => ⟨"native-id", cr.model, cr.payload, ⟨0, 0, 999⟩⟩)
    ⟨some ⟨"AK\nSK", "us-west-2"⟩, "claude-3-opus-20240229", "claude-3-opus-20240229", true, 0⟩
    "my-claude"
    ⟨Except.ok (), Except.ok (), Except.ok (),
     Except.ok ⟨"anthropic-internal", "hello", ⟨10, 5⟩⟩⟩
    ⟨"anthropic-internal", "hello", ⟨10, 5⟩⟩
    ⟨⟨"AK\nSK", "us-west-2"⟩, rfl, ⟨"us-west-2", "AK", "SK"⟩, rfl⟩
    ⟨"anthropic.claude-3-opus-20240229-v1:0", rfl⟩
    rfl rfl rfl rfl rfl

/-- C1 counterexample: the streaming handler never writes the total-tokens
field: after one metadata event with input=10, output=5 the returned Usage
is {10, 5, 0}, so total tokens is not prompt plus completion recomputed at
the end. -/
theorem stream_usage_total_not_recomputed :
    ∃ u, (StreamHandler
        ⟨some ⟨"AKIA\nSECRET", "us-east-1"⟩, "claude-2.0", "claude-2.0", true, 50⟩
        ⟨Except.ok (), Except.ok (), Except.ok (),
         [StreamEvent.chunk (ChunkDecode.ok none (some ⟨"msg_1", 10, 5⟩))]⟩).usage
          = some u ∧
      u.promptTokens = 10 ∧ u.completionTokens = 5 ∧
      u.totalTokens ≠ u.promptTokens + u.completionTokens :=
  ⟨⟨10, 5, 0⟩, rfl, rfl, rfl, by decide⟩

/-- C1 (amended): the Usage returned by the streaming handler at pump exit
has prompt tokens equal to the sum of the InputTokens deltas and
completion tokens equal to the sum of the OutputTokens deltas of all
metadata-bearing events observed before termination (the longest prefix of
events on which the loop continues — in particular any truncated stream),
while the total-tokens field is left at its zero initial value rather than
recomputed. -/
theorem stream_usage_accumulates_deltas (ctx : HandlerCtx) (env : StreamEnv)
    (h : streamReachesPump ctx env) :
    (StreamHandler ctx env).usage =
      some { promptTokens := sumInputs (env.events.takeWhile eventContinues),
             completionTokens := sumOutputs (env.events.takeWhile eventContinues),
             totalTokens := 0 } := by
  rw [StreamHandler_pump ctx env h]
  simp [pumpLoop_usage]

/-- Witness for C1: two metadata events (10,5) and (1,2) followed by a
decode failure and an unreachable further metadata event accumulate to
{11, 7, 0}. -/
theorem stream_usage_accumulates_deltas_witness :
    (StreamHandler
        ⟨some ⟨"AK\nSK", "us-east-1"⟩, "claude-2.1", "claude-2.1", true, 9⟩
        ⟨Except.ok (), Except.ok (), Except.ok (),
         [StreamEvent.chunk (ChunkDecode.ok none (some ⟨"a", 10, 5⟩)),
          StreamEvent.chunk (ChunkDecode.ok none (some ⟨"b", 1, 2⟩)),
          StreamEvent.chunk ChunkDecode.fail,
          StreamEvent.chunk (ChunkDecode.ok none (some ⟨"c", 100, 100⟩))]⟩).usage
      = some ⟨11, 7, 0⟩ := by
  rw [stream_usage_accumulates_deltas
    ⟨some ⟨"AK\nSK", "us-east-1"⟩, "claude-2.1", "claude-2.1", true, 9⟩
    ⟨Except.ok (), Except.ok (), Except.ok (),
     [StreamEvent.chunk (ChunkDecode.ok none (some ⟨"a", 10, 5⟩)),
      StreamEvent.chunk (ChunkDecode.ok none (some ⟨"b", 1, 2⟩)),
      StreamEvent.chunk ChunkDecode.fail,
      StreamEvent.chunk (ChunkDecode.ok none (some ⟨"c", 100, 100⟩))]⟩
    ⟨⟨⟨"AK\nSK", "us-east-1"⟩, rfl, ⟨"us-east-1", "AK", "SK"⟩, rfl⟩,
     ⟨"anthropic.claude-v2:1", rfl⟩, rfl, rfl, rfl, rfl⟩]
  decide

/-- C2 counterexample: when no metadata event was ever received, emitted
frames carry the empty string as identifier (the zero value of the id
accumulator), not a generated identifier. -/
theorem stream_frame_id_empty_without_metadata :
    (StreamHandler
        ⟨some ⟨"AK\nSK", "us-east-1"⟩, "claude-2.1", "gpt-proxy", true, 7⟩
        ⟨Except.ok (), Except.ok (), Except.ok (),
         [StreamEvent.chunk (ChunkDecode.ok (some ⟨"hello", true⟩) none)]⟩).frames =
      [Frame.data ⟨"", "gpt-proxy", 7, "hello"⟩, Frame.done] := by
  decide

/-- C2 (amended): every content frame emitted by the streaming handler on
a stream consisting of one metadata event followed by metadata-free events
is stamped with the identifier captured from that metadata event (prefixed
chatcmpl-), with the caller's original requested model name, and with the
single creation timestamp fixed at stream start, so all frames of one
stream carry the same id, model and creation time; when no metadata event
was ever received the identifier accumulator stays at its initial empty
string, not a generated identifier. -/
theorem stream_frames_uniform_stamp (ctx : HandlerCtx) (env : StreamEnv)
    (hp : streamReachesPump ctx env) (m : MetaInfo) (es : List StreamEvent)
    (hev : env.events = StreamEvent.chunk (ChunkDecode.ok none (some m)) :: es)
    (h : (es.all fun e => (metaOf e).isNone) = true) :
    ((StreamHandler ctx env).frames.all fun f =>
      match f with
      | Frame.done => true
      | Frame.data c =>
          c.id == "chatcmpl-" ++ m.id && c.model == ctx.originModel
            && c.created == ctx.createdTime) = true := by
  rw [StreamHandler_pump ctx env hp, hev]
  simp only [pumpLoop]
  exact pumpLoop_frames_stamped ctx.originModel ctx.createdTime es h _ _

/-- Witness for C2: one metadata event with id msg_abc followed by three
content events; all three emitted frames carry the identical id
chatcmpl-msg_abc, the origin model and the stream-start timestamp. -/
theorem stream_frames_uniform_stamp_witness :
    ((StreamHandler
        ⟨some ⟨"AK\nSK", "ap-south-1"⟩, "claude-3-haiku-20240307", "haiku-alias", true, 42⟩
        ⟨Except.ok (), Except.ok (), Except.ok (),
         [StreamEvent.chunk (ChunkDecode.ok none (some ⟨"msg_abc", 3, 4⟩)),
          StreamEvent.chunk (ChunkDecode.ok (some ⟨"one", true⟩) none),
          StreamEvent.chunk (ChunkDecode.ok (some ⟨"two", true⟩) none),
          StreamEvent.chunk (ChunkDecode.ok (some ⟨"three", true⟩) none)]⟩).frames.all
      fun f =>
        match f with
        | Frame.done => true
        | Frame.data c =>
            c.id == "chatcmpl-" ++ (⟨"msg_abc", 3, 4⟩ : MetaInfo).id
              && c.model == "haiku-alias" && c.created == 42) = true :=
  stream_frames_uniform_stamp
    ⟨some ⟨"AK\nSK", "ap-south-1"⟩, "claude-3-haiku-20240307", "haiku-alias", true, 42⟩
    ⟨Except.ok (), Except.ok (), Except.ok (),
     [StreamEvent.chunk (ChunkDecode.ok none (some ⟨"msg_abc", 3, 4⟩)),
      StreamEvent.chunk (ChunkDecode.ok (some ⟨"one", true⟩) none),
      StreamEvent.chunk (ChunkDecode.ok (some ⟨"two", true⟩) none),
      StreamEvent.chunk (ChunkDecode.ok (some ⟨"three", true⟩) none)]⟩
    ⟨⟨⟨"AK\nSK", "ap-south-1"⟩, rfl, ⟨"ap-south-1", "AK", "SK"⟩, rfl⟩,
     ⟨"anthropic.claude-3-haiku-20240307-v1:0", rfl⟩, rfl, rfl, rfl, rfl⟩
    ⟨"msg_abc", 3, 4⟩
    [StreamEvent.chunk (ChunkDecode.ok (some ⟨"one", true⟩) none),
     StreamEvent.chunk (ChunkDecode.ok (some ⟨"two", true⟩) none),
     StreamEvent.chunk (ChunkDecode.ok (some ⟨"three", true⟩) none)]
    rfl (by decide)

/-- C7: for every stream whose native event channel closes normally (every
delivered event keeps the loop going), the streaming handler emits the
terminator frame exactly once, after the last content frame and never
before any content frame: the frame list is some terminator-free content
frames followed by the single terminator. -/
theorem stream_done_terminator_once_last (ctx : HandlerCtx) (env : StreamEnv)
    (hp : streamReachesPump ctx env)
    (h : ∀ e ∈ env.events, eventContinues e = true) :
    ∃ cs, (StreamHandler ctx env).frames = cs ++ [Frame.done] ∧
      Frame.done ∉ cs := by
  rw [StreamHandler_pump ctx env hp]
  exact (pumpLoop_closed_frames ctx.originModel ctx.createdTime env.events h "" _).1

/-- Witness for C7: a metadata event followed by two content events ends
with exactly one trailing terminator. -/
theorem stream_done_terminator_once_last_witness :
    (∀ e ∈ [StreamEvent.chunk (ChunkDecode.ok none (some ⟨"w", 1, 1⟩)),
            StreamEvent.chunk (ChunkDecode.ok (some ⟨"p", true⟩) none),
            StreamEvent.chunk (ChunkDecode.ok (some ⟨"q", true⟩) none)],
       eventContinues e = true) ∧
    ∃ cs, (StreamHandler
        ⟨some ⟨"AK\nSK", "us-east-2"⟩, "claude-instant-1.2", "instant-alias", true, 3⟩
        ⟨Except.ok (), Except.ok (), Except.ok (),
         [StreamEvent.chunk (ChunkDecode.ok none (some ⟨"w", 1, 1⟩)),
          StreamEvent.chunk (ChunkDecode.ok (some ⟨"p", true⟩) none),
          StreamEvent.chunk (ChunkDecode.ok (some ⟨"q", true⟩) none)]⟩).frames
      = cs ++ [Frame.done] ∧ Frame.done ∉ cs :=
  ⟨by decide,
   stream_done_terminator_once_last
    ⟨some ⟨"AK\nSK", "us-east-2"⟩, "claude-instant-1.2", "instant-alias", true, 3⟩
    ⟨Except.ok (), Except.ok (), Except.ok (),
     [StreamEvent.chunk (ChunkDecode.ok none (some ⟨"w", 1, 1⟩)),
      StreamEvent.chunk (ChunkDecode.ok (some ⟨"p", true⟩) none),
      StreamEvent.chunk (ChunkDecode.ok (some ⟨"q", true⟩) none)]⟩
    ⟨⟨⟨"AK\nSK", "us-east-2"⟩, rfl, ⟨"us-east-2", "AK", "SK"⟩, rfl⟩,
     ⟨"anthropic.claude-instant-v1", rfl⟩, rfl, rfl, rfl, rfl⟩
    (by decide)⟩

/-- C8: a stream hitting an unknown-tagged event, an unknown union member
or a decode failure terminates immediately — the result is the same as if
no further events existed — with no terminator frame ever written, and the
handler still returns the usage accumulated up to that point (with a nil
error) rather than discarding it. -/
theorem stream_error_no_terminator_keeps_usage (ctx : HandlerCtx)
    (env : StreamEnv) (es rest : List StreamEvent) (bad : StreamEvent)
    (hp : streamReachesPump ctx env)
    (hev : env.events = es ++ bad :: rest)
    (hes : ∀ e ∈ es, eventContinues e = true)
    (hbad : eventContinues bad = false) :
    (StreamHandler ctx env).error = none ∧
    Frame.done ∉ (StreamHandler ctx env).frames ∧
    (StreamHandler ctx env).usage =
      some { promptTokens := sumInputs es, completionTokens := sumOutputs es,
             totalTokens := 0 } ∧
    StreamHandler ctx env = StreamHandler ctx { env with events := es ++ [bad] } := by
  have tw : (es ++ bad :: rest).takeWhile eventContinues = es := by
    rw [takeWhile_append_all eventContinues es (bad :: rest) hes]
    simp [List.takeWhile_cons, hbad]
  refine ⟨?_, ?_, ?_, ?_⟩
  · rw [StreamHandler_pump ctx env hp]
  · rw [StreamHandler_pump ctx env hp]
    simp only [hev]
    exact (pumpLoop_errored_no_done ctx.originModel ctx.createdTime bad hbad rest
      es hes "" _).2
  · rw [StreamHandler_pump ctx env hp]
    simp only [hev, pumpLoop_usage]
    simp [tw]
  · have hp' : streamReachesPump ctx { env with events := es ++ [bad] } := hp
    rw [StreamHandler_pump ctx env hp, StreamHandler_pump ctx _ hp']
    simp only [hev]
    rw [pumpLoop_stops_at_error ctx.originModel ctx.createdTime bad hbad rest es "" _]

/-- Witness for C8: a metadata event (2,3) and a content event followed by
an unknown-tag event and an unreachable later metadata event: the handler
returns nil error, writes no terminator, and keeps usage {2, 3, 0}. -/
theorem stream_error_no_terminator_keeps_usage_witness :
    (StreamHandler
        ⟨some ⟨"AK\nSK", "eu-west-1"⟩, "claude-3-sonnet-20240229", "sonnet-alias", true, 8⟩
        ⟨Except.ok (), Except.ok (), Except.ok (),
         [StreamEvent.chunk (ChunkDecode.ok none (some ⟨"m", 2, 3⟩)),
          StreamEvent.chunk (ChunkDecode.ok (some ⟨"x", true⟩) none),
          StreamEvent.unknownTag "surprise",
          StreamEvent.chunk (ChunkDecode.ok none (some ⟨"z", 50, 60⟩))]⟩).error = none ∧
    Frame.done ∉ (StreamHandler
        ⟨some ⟨"AK\nSK", "eu-west-1"⟩, "claude-3-sonnet-20240229", "sonnet-alias", true, 8⟩
        ⟨Except.ok (), Except.ok (), Except.ok (),
         [StreamEvent.chunk (ChunkDecode.ok none (some ⟨"m", 2, 3⟩)),
          StreamEvent.chunk (ChunkDecode.ok (some ⟨"x", true⟩) none),
          StreamEvent.unknownTag "surprise",
          StreamEvent.chunk (ChunkDecode.ok none (some ⟨"z", 50, 60⟩))]⟩).frames ∧
    (StreamHandler
        ⟨some ⟨"AK\nSK", "eu-west-1"⟩, "claude-3-sonnet-20240229", "sonnet-alias", true, 8⟩
        ⟨Except.ok (), Except.ok (), Except.ok (),
         [StreamEvent.chunk (ChunkDecode.ok none (some ⟨"m", 2, 3⟩)),
          StreamEvent.chunk (ChunkDecode.ok (some ⟨"x", true⟩) none),
          StreamEvent.unknownTag "surprise",
          StreamEvent.chunk (ChunkDecode.ok none (some ⟨"z", 50, 60⟩))]⟩).usage
      = some ⟨2, 3, 0⟩ := by
  have h := stream_error_no_terminator_keeps_usage
    ⟨some ⟨"AK\nSK", "eu-west-1"⟩, "claude-3-sonnet-20240229", "sonnet-alias", true, 8⟩
    ⟨Except.ok (), Except.ok (), Except.ok (),
     [StreamEvent.chunk (ChunkDecode.ok none (some ⟨"m", 2, 3⟩)),
      StreamEvent.chunk (ChunkDecode.ok (some ⟨"x", true⟩) none),
      StreamEvent.unknownTag "surprise",
      StreamEvent.chunk (ChunkDecode.ok none (some ⟨"z", 50, 60⟩))]⟩
    [StreamEvent.chunk (ChunkDecode.ok none (some ⟨"m", 2, 3⟩)),
     StreamEvent.chunk (ChunkDecode.ok (some ⟨"x", true⟩) none)]
    [StreamEvent.chunk (ChunkDecode.ok none (some ⟨"z", 50, 60⟩))]
    (StreamEvent.unknownTag "surprise")
    ⟨⟨⟨"AK\nSK", "eu-west-1"⟩, rfl, ⟨"eu-west-1", "AK", "SK"⟩, rfl⟩,
     ⟨"anthropic.claude-3-sonnet-20240229-v1:0", rfl⟩, rfl, rfl, rfl, rfl⟩
    rfl (by decide) rfl
  refine ⟨h.1, h.2.1, ?_⟩
  rw [h.2.2.1]
  decide

/-- C10: a content event whose canonical chunk fails to marshal is skipped
without a frame and without ending the stream: the pump's entire result
(frames, usage, identifier, ending) over any stream containing such an
event equals the result over the same stream with that event removed. -/
theorem stream_marshal_failure_skips_frame (model : String) (t : Int)
    (es1 es2 : List StreamEvent) (r : ContentPiece) (hr : r.marshalOk = false) :
    ∀ (ident : String) (u : Usage),
      pumpLoop model t
          (es1 ++ StreamEvent.chunk (ChunkDecode.ok (some r) none) :: es2) ident u
        = pumpLoop model t (es1 ++ es2) ident u := by
  induction es1 with
  | nil =>
    intro ident u
    simp [pumpLoop, hr]
  | cons e es ih =>
    intro ident u
    cases e with
    | chunk d =>
      cases d with
      | fail => simp [pumpLoop]
      | ok response meta =>
        cases meta with
        | some m => simpa [pumpLoop] using ih _ _
        | none =>
          cases response with
          | none => simpa [pumpLoop] using ih ident u
          | some rr =>
            by_cases hrr : rr.marshalOk <;> simp [pumpLoop, hrr, ih ident u]
    | unknownTag tag => simp [pumpLoop]
    | unknownUnion => simp [pumpLoop]

/-- Witness for C10: a marshal-failing content event between a metadata
event and a good content event changes nothing about the pump's result. -/
theorem stream_marshal_failure_skips_frame_witness :
    pumpLoop "m-alias" 5
        [StreamEvent.chunk (ChunkDecode.ok none (some ⟨"i", 1, 1⟩)),
         StreamEvent.chunk (ChunkDecode.ok (some ⟨"bad", false⟩) none),
         StreamEvent.chunk (ChunkDecode.ok (some ⟨"good", true⟩) none)] ""
        ⟨0, 0, 0⟩
      = pumpLoop "m-alias" 5
        [StreamEvent.chunk (ChunkDecode.ok none (some ⟨"i", 1, 1⟩)),
         StreamEvent.chunk (ChunkDecode.ok (some ⟨"good", true⟩) none)] ""
        ⟨0, 0, 0⟩ :=
  stream_marshal_failure_skips_frame "m-alias" 5
    [StreamEvent.chunk (ChunkDecode.ok none (some ⟨"i", 1, 1⟩))]
    [StreamEvent.chunk (ChunkDecode.ok (some ⟨"good", true⟩) none)]
    ⟨"bad", false⟩ rfl "" ⟨0, 0, 0⟩

end OneApi
